import Mathlib

/-!
Verification development for the Tavily reconnaissance tool wrappers of this
repository.  Two Python modules are embedded:

the requests-based module src/cai/tools/reconnaissance/tavily.py
(namespace Tavily.Req below), and

the SDK-based module src/cai/tools/reconnaissance/tavily_tool.py
(namespace Tavily.Sdk below).

Modelling conventions.  Python dicts used as request payloads become
association lists (Params) together with a dict-assignment operation
dictSet that overwrites an existing key in place or appends a fresh key,
exactly as Python dict assignment behaves with respect to key order.
Relevance scores are modelled as an exact number of hundredths (structure
Score); on that domain the two renderings found in the source, Python str()
and the .2f format spec, are reproduced character for character.  Fallible
remote calls are an explicit RemoteOutcome argument; the try/except block of
the source is an Except value that the embedded function catches.  Formatter
output is modelled as a list of tagged lines, one constructor per append in
the source, with a render function giving the exact string of each line, so
that the final returned strings coincide with the strings the source builds.
-/

namespace Tavily

/-- A relevance score, modelled as an exact number of hundredths of a unit.
The sources only ever render a score either with Python str() or with the
.2f format spec; on scores that are exact multiples of 0.01 both renderings
are reproduced exactly by the functions below. -/
structure Score where
  hundredths : Nat
deriving DecidableEq, Repr

/-- Python str() of a float score that is an exact multiple of 0.01: the
shortest decimal digit string (a trailing zero in the hundredths place is
dropped, and a whole number renders with a single trailing .0). -/
def Score.toPyStr (s : Score) : String :=
  let whole := s.hundredths / 100
  let frac := s.hundredths % 100
  if frac = 0 then toString whole ++ ".0"
  else if frac % 10 = 0 then toString whole ++ "." ++ toString (frac / 10)
  else if frac < 10 then toString whole ++ ".0" ++ toString frac
  else toString whole ++ "." ++ toString frac

/-- Python format spec .2f on a score that is an exact multiple of 0.01:
always exactly two digits after the decimal point. -/
def Score.toFixed2 (s : Score) : String :=
  let whole := s.hundredths / 100
  let frac := s.hundredths % 100
  if frac < 10 then toString whole ++ ".0" ++ toString frac
  else toString whole ++ "." ++ toString frac

/-- Python string slicing s[:n], the first n characters of s. -/
def strTake (s : String) (n : Nat) : String :=
  String.mk (s.data.take n)

/-- Python list slicing lst[:k] for an int k: a nonnegative k keeps the
first k elements, a negative k drops the last (-k) elements. -/
def pySliceTo {α : Type} (l : List α) (k : Int) : List α :=
  if 0 ≤ k then l.take k.toNat else l.take ((l.length : Int) + k).toNat

/-- A JSON-like value as placed in an outgoing request payload. -/
inductive JValue where
  | str (s : String)
  | int (n : Int)
  | bool (b : Bool)
  | strList (l : List String)
  | null
deriving DecidableEq, Repr

/-- A request payload: a Python dict in insertion order. -/
abbrev Params := List (String × JValue)

/-- Python dict assignment d[k] = v: overwrite the value of an existing key
in place, or append a fresh key at the end. -/
def dictSet (d : Params) (k : String) (v : JValue) : Params :=
  if d.any (fun kv => kv.1 == k) then
    d.map (fun kv => if kv.1 == k then (k, v) else kv)
  else d ++ [(k, v)]

/-- The emptiness test of _add_optional_params in tavily_tool.py: a value is
skipped when it is None, the empty list, or the empty string. -/
def isEmptyValue : JValue → Bool
  | JValue.null => true
  | JValue.str s => s == ""
  | JValue.strList l => l.isEmpty
  | _ => false

/-- Embedding of _add_optional_params of tavily_tool.py lines 30 to 35: add
each keyword argument to the params dict unless its value is None, the empty
list, or the empty string. -/
def add_optional_params (params : Params) : List (String × JValue) → Params
  | [] => params
  | (k, v) :: rest =>
      if isEmptyValue v then add_optional_params params rest
      else add_optional_params (dictSet params k v) rest

/-- An optional string argument as a JValue (Python None becomes null). -/
def optStr : Option String → JValue
  | some s => JValue.str s
  | none => JValue.null

/-- An optional string-list argument as a JValue (Python None becomes null). -/
def optStrList : Option (List String) → JValue
  | some l => JValue.strList l
  | none => JValue.null

namespace Req

/-- One entry of the results list of the remote response, as consumed by the
formatters of tavily.py.  A field is none when its key is absent from the
result object (all these fields are read with result.get or a key test). -/
structure SearchResult where
  title : Option String := none
  url : Option String := none
  content : Option String := none
  score : Option Score := none
  published_date : Option String := none
  raw_content : Option String := none
  images : Option (List String) := none
deriving DecidableEq, Repr

/-- Behaviour of the single requests.post call of _perform_tavily_search:
either the call (or response.json) raises, or it returns a status code and a
body whose results key is present or absent. -/
inductive RemoteOutcome where
  | exc
  | resp (status : Nat) (results : Option (List SearchResult))
deriving Repr

/-- The arguments of _perform_tavily_search with their Python defaults. -/
structure PerformSearchArgs where
  query : String
  limit : Int := 5
  search_depth : String := "basic"
  topic : String := "general"
  include_images : Bool := false
deriving DecidableEq, Repr

/-- The request payload built by _perform_tavily_search, tavily.py lines 174
to 187: the base dict followed by the topic-specific assignment. -/
def searchPayload (a : PerformSearchArgs) : Params :=
  let payload : Params := [
    ("query", JValue.str a.query),
    ("search_depth", JValue.str a.search_depth),
    ("include_images", JValue.bool a.include_images),
    ("include_answer", JValue.bool true),
    ("include_raw_content", JValue.bool (a.search_depth == "advanced")),
    ("max_results", JValue.int a.limit),
    ("include_domains", JValue.strList []),
    ("exclude_domains", JValue.strList [])]
  if a.topic == "news" then dictSet payload "topic" (JValue.str "news") else payload

/-- The try-block body of _perform_tavily_search, tavily.py lines 164 to
206.  The first component is the value the block produces, with Except.error
standing for an exception that propagates to the except handler; the second
component counts the network calls (requests.post invocations) performed. -/
def performSearchBody (api_key : Option String) (a : PerformSearchArgs)
    (remote : RemoteOutcome) : Except Unit (List SearchResult) × Nat :=
  if api_key.getD "" = "" then (Except.ok [], 0)
  else
    match remote with
    | RemoteOutcome.exc => (Except.error (), 1)
    | RemoteOutcome.resp status results =>
        if status ≠ 200 then (Except.ok [], 1)
        else
          match results with
          | none => (Except.ok [], 1)
          | some rs => (Except.ok (pySliceTo rs a.limit), 1)

/-- Embedding of _perform_tavily_search together with its network-call
counter: the except handler of tavily.py lines 208 to 209 turns any raised
exception into the empty list. -/
def perform_tavily_search_run (api_key : Option String) (a : PerformSearchArgs)
    (remote : RemoteOutcome) : List SearchResult × Nat :=
  let bn := performSearchBody api_key a remote
  (match bn.1 with
   | Except.ok l => l
   | Except.error _ => [], bn.2)

/-- The return value of _perform_tavily_search, tavily.py lines 149 to 209. -/
def perform_tavily_search (api_key : Option String) (a : PerformSearchArgs)
    (remote : RemoteOutcome) : List SearchResult :=
  (perform_tavily_search_run api_key a remote).1

/-- One appended line of a tavily.py formatter.  Each constructor is one of
the formatted_results += statements; render gives its exact string. -/
inductive RLine where
  | header (s : String)
  | title (s : String)
  | url (s : String)
  | content (s : String)
  | score (s : String)
  | published (s : String)
  | images (s : String)
  | rawPreview (s : String)
  | blank
deriving DecidableEq, Repr

/-- The exact string appended for each line, including the trailing newline
of the corresponding += statement in tavily.py. -/
def RLine.render : RLine → String
  | RLine.header s => s ++ "\n"
  | RLine.title s => "Title: " ++ s ++ "\n"
  | RLine.url s => "URL: " ++ s ++ "\n"
  | RLine.content s => "Content: " ++ s ++ "\n"
  | RLine.score s => "Score: " ++ s ++ "\n"
  | RLine.published s => "Published Date: " ++ s ++ "\n"
  | RLine.images s => "Images: " ++ s ++ "\n"
  | RLine.rawPreview s => "Raw Content Preview: " ++ s ++ "...\n"
  | RLine.blank => "\n"

/-- The string rendered for the score field in tavily.py: the score of the
result object under Python str, or the literal N/A when absent. -/
def scoreField : Option Score → String
  | some s => Score.toPyStr s
  | none => "N/A"

/-- Python enumerate(results, i): pair each element with its 1-based index. -/
def enumFrom {α : Type} (i : Nat) : List α → List (Nat × α)
  | [] => []
  | a :: rest => (i, a) :: enumFrom (i + 1) rest

/-- The per-result block of tavily_search, tavily.py lines 38 to 44. -/
def searchResultBlock (i : Nat) (r : SearchResult) : List RLine :=
  [RLine.header ("Result " ++ toString i ++ ":"),
   RLine.title (r.title.getD "N/A"),
   RLine.url (r.url.getD "N/A"),
   RLine.content (r.content.getD "N/A"),
   RLine.score (scoreField r.score),
   RLine.published (r.published_date.getD "N/A"),
   RLine.blank]

/-- The per-result block of tavily_search_with_images, tavily.py lines 68 to
79: the images line appears only when the images key is present and the list
is nonempty, rendered with a comma-space join. -/
def imagesResultBlock (i : Nat) (r : SearchResult) : List RLine :=
  [RLine.header ("Result " ++ toString i ++ ":"),
   RLine.title (r.title.getD "N/A"),
   RLine.url (r.url.getD "N/A"),
   RLine.content (r.content.getD "N/A"),
   RLine.score (scoreField r.score),
   RLine.published (r.published_date.getD "N/A")]
  ++ (match r.images with
      | some l => if l = [] then [] else [RLine.images (String.intercalate ", " l)]
      | none => [])
  ++ [RLine.blank]

/-- The per-result block of tavily_news_search, tavily.py lines 103 to 109. -/
def newsResultBlock (i : Nat) (r : SearchResult) : List RLine :=
  [RLine.header ("News " ++ toString i ++ ":"),
   RLine.title (r.title.getD "N/A"),
   RLine.url (r.url.getD "N/A"),
   RLine.content (r.content.getD "N/A"),
   RLine.score (scoreField r.score),
   RLine.published (r.published_date.getD "N/A"),
   RLine.blank]

/-- The per-result block of tavily_research, tavily.py lines 133 to 144: the
raw-content preview line appears whenever the raw_content key is present,
and carries the first 200 characters (render appends the ellipsis). -/
def researchResultBlock (i : Nat) (r : SearchResult) : List RLine :=
  [RLine.header ("Research Result " ++ toString i ++ ":"),
   RLine.title (r.title.getD "N/A"),
   RLine.url (r.url.getD "N/A"),
   RLine.content (r.content.getD "N/A"),
   RLine.score (scoreField r.score),
   RLine.published (r.published_date.getD "N/A")]
  ++ (match r.raw_content with
      | some rc => [RLine.rawPreview (strTake rc 200)]
      | none => [])
  ++ [RLine.blank]

/-- Concatenate the rendered blocks of an enumerated result list. -/
def renderedBlocks (block : Nat → SearchResult → List RLine)
    (results : List SearchResult) : String :=
  String.join ((((enumFrom 1 results).map (fun p => block p.1 p.2)).flatten).map RLine.render)

/-- Embedding of tavily_search of tavily.py lines 19 to 46, with the
network-call counter threaded through. -/
def tavily_search_run (api_key : Option String) (query : String) (limit : Int)
    (remote : RemoteOutcome) : String × Nat :=
  let rn := perform_tavily_search_run api_key { query := query, limit := limit } remote
  (if rn.1 = [] then "No results found or search error occurred."
   else renderedBlocks searchResultBlock rn.1, rn.2)

/-- The string returned by tavily_search of tavily.py. -/
def tavily_search (api_key : Option String) (query : String) (limit : Int)
    (remote : RemoteOutcome) : String :=
  (tavily_search_run api_key query limit remote).1

/-- Embedding of tavily_search_with_images of tavily.py lines 49 to 81. -/
def tavily_search_with_images_run (api_key : Option String) (query : String)
    (limit : Int) (remote : RemoteOutcome) : String × Nat :=
  let rn := perform_tavily_search_run api_key
    { query := query, limit := limit, include_images := true } remote
  (if rn.1 = [] then "No results found or search error occurred."
   else renderedBlocks imagesResultBlock rn.1, rn.2)

/-- The string returned by tavily_search_with_images of tavily.py. -/
def tavily_search_with_images (api_key : Option String) (query : String)
    (limit : Int) (remote : RemoteOutcome) : String :=
  (tavily_search_with_images_run api_key query limit remote).1

/-- Embedding of tavily_news_search of tavily.py lines 84 to 111. -/
def tavily_news_search_run (api_key : Option String) (query : String) (limit : Int)
    (remote : RemoteOutcome) : String × Nat :=
  let rn := perform_tavily_search_run api_key
    { query := query, limit := limit, search_depth := "basic", topic := "news" } remote
  (if rn.1 = [] then "No news results found or search error occurred."
   else "News search results for: " ++ query ++ "\n\n"
        ++ renderedBlocks newsResultBlock rn.1, rn.2)

/-- The string returned by tavily_news_search of tavily.py. -/
def tavily_news_search (api_key : Option String) (query : String) (limit : Int)
    (remote : RemoteOutcome) : String :=
  (tavily_news_search_run api_key query limit remote).1

/-- Embedding of tavily_research of tavily.py lines 114 to 146. -/
def tavily_research_run (api_key : Option String) (query : String) (limit : Int)
    (remote : RemoteOutcome) : String × Nat :=
  let rn := perform_tavily_search_run api_key
    { query := query, limit := limit, search_depth := "advanced" } remote
  (if rn.1 = [] then "No research results found or search error occurred."
   else "Research results for: " ++ query ++ "\n\n"
        ++ renderedBlocks researchResultBlock rn.1, rn.2)

/-- The string returned by tavily_research of tavily.py. -/
def tavily_research (api_key : Option String) (query : String) (limit : Int)
    (remote : RemoteOutcome) : String :=
  (tavily_research_run api_key query limit remote).1

end Req

namespace Sdk

/-- The arguments of tavily_search of tavily_tool.py with their Python
defaults, tavily_tool.py lines 39 to 53. -/
structure SearchArgs where
  query : String
  search_depth : String := "basic"
  topic : String := "general"
  days : Option Int := none
  time_range : Option String := none
  max_results : Int := 10
  include_images : Bool := false
  include_image_descriptions : Bool := false
  include_raw_content : Bool := false
  include_domains : Option (List String) := none
  exclude_domains : Option (List String) := none
  country : Option String := none
  include_favicon : Bool := false
deriving DecidableEq, Repr

/-- Embedding of _get_tavily_client, tavily_tool.py lines 22 to 27: a
missing or empty TAVILY_KEY raises a ValueError with this message before any
network activity. -/
def get_tavily_client (api_key : Option String) : Except String Unit :=
  match api_key with
  | none => Except.error "TAVILY_KEY environment variable is not set."
  | some s =>
      if s = "" then Except.error "TAVILY_KEY environment variable is not set."
      else Except.ok ()

/-- The base search_params dict of tavily_tool.py lines 78 to 86, including
the clamp of max_results into the inclusive range 5 to 20. -/
def sdkP0 (a : SearchArgs) : Params :=
  [("query", JValue.str a.query),
   ("search_depth", JValue.str a.search_depth),
   ("topic", JValue.str a.topic),
   ("max_results", JValue.int (min (max a.max_results 5) 20)),
   ("include_images", JValue.bool (a.include_images || a.include_image_descriptions)),
   ("include_image_descriptions", JValue.bool a.include_image_descriptions),
   ("include_raw_content", JValue.bool a.include_raw_content)]

/-- The days assignment of tavily_tool.py lines 89 to 90: attached only when
days was supplied and the topic is news. -/
def sdkP1 (a : SearchArgs) : Params :=
  match a.days with
  | some d => if a.topic = "news" then dictSet (sdkP0 a) "days" (JValue.int d) else sdkP0 a
  | none => sdkP0 a

/-- The keyword arguments of the _add_optional_params call of
tavily_tool.py lines 92 to 98, in order, with include_favicon already
rewritten to None when the flag is False as in line 97. -/
def sdkKwargs (a : SearchArgs) : List (String × JValue) :=
  [("time_range", optStr a.time_range),
   ("include_domains", optStrList a.include_domains),
   ("exclude_domains", optStrList a.exclude_domains),
   ("include_favicon", if a.include_favicon then JValue.bool true else JValue.null)]

/-- The _add_optional_params call of tavily_tool.py lines 92 to 98. -/
def sdkP2 (a : SearchArgs) : Params :=
  add_optional_params (sdkP1 a) (sdkKwargs a)

/-- The full search_params dict of tavily_tool.py lines 78 to 102: the
country branch (lines 100 to 102) runs only for a truthy country and the
general topic, re-assigning topic and appending the lowercased country. -/
def sdkSearchParams (a : SearchArgs) : Params :=
  match a.country with
  | some c =>
      if c ≠ "" ∧ a.topic = "general" then
        dictSet (dictSet (sdkP2 a) "topic" (JValue.str "general"))
          "country" (JValue.str c.toLower)
      else sdkP2 a
  | none => sdkP2 a

/-- One entry of the results list of the SDK search response, as consumed by
the formatter of tavily_tool.py lines 116 to 128: title, url and content are
read with plain subscripts; score, raw_content and favicon with key tests.
A none field stands for an absent key. -/
structure SdkResult where
  title : String
  url : String
  content : String
  score : Option Score := none
  raw_content : Option String := none
  favicon : Option String := none
deriving DecidableEq, Repr

/-- One entry of the images list of the SDK search response: either a bare
URL string or a structured object with optional url and description keys. -/
inductive ImageEntry where
  | url (u : String)
  | obj (u : Option String) (d : Option String)
deriving DecidableEq, Repr

/-- The SDK search response as consumed by the formatter: an optional answer
string, the results list, and an optional images list. -/
structure SdkSearchResponse where
  answer : Option String := none
  results : List SdkResult
  images : Option (List ImageEntry) := none
deriving DecidableEq, Repr

/-- One output.append of the SDK search formatter.  Each constructor is one
append statement of tavily_tool.py lines 107 to 141; render gives its exact
string. -/
inductive SLine where
  | answerLine (s : String)
  | blankLine
  | headerLine
  | titleLine (s : String)
  | urlLine (s : String)
  | contentLine (s : String)
  | scoreLine (s : Score)
  | rawContentLine (s : String)
  | faviconLine (s : String)
  | imagesHeader
  | imageUrlLine (i : Nat) (u : String)
  | imageDescLine (s : String)
deriving DecidableEq, Repr

/-- The exact string of each appended output entry of the SDK search
formatter; the entries are later joined with single newlines. -/
def SLine.render : SLine → String
  | SLine.answerLine s => "Answer: " ++ s
  | SLine.blankLine => ""
  | SLine.headerLine => "Detailed Results:"
  | SLine.titleLine s => "\nTitle: " ++ s
  | SLine.urlLine s => "URL: " ++ s
  | SLine.contentLine s => "Content: " ++ s
  | SLine.scoreLine s => "Score: " ++ Score.toFixed2 s
  | SLine.rawContentLine s => "Raw Content: " ++ s
  | SLine.faviconLine s => "Favicon: " ++ s
  | SLine.imagesHeader => "\nImages:"
  | SLine.imageUrlLine i u => "\n[" ++ toString i ++ "] URL: " ++ u
  | SLine.imageDescLine s => "   Description: " ++ s

/-- The score line of tavily_tool.py lines 121 to 122: appended only when
the score key is present. -/
def sdkScoreLines (r : SdkResult) : List SLine :=
  match r.score with
  | some s => [SLine.scoreLine s]
  | none => []

/-- The raw-content line of tavily_tool.py lines 124 to 125: appended only
when requested, present, and truthy (nonempty). -/
def sdkRawContentLines (include_raw_content : Bool) (r : SdkResult) : List SLine :=
  if include_raw_content then
    match r.raw_content with
    | some rc => if rc = "" then [] else [SLine.rawContentLine rc]
    | none => []
  else []

/-- The favicon line of tavily_tool.py lines 127 to 128: appended only when
requested, present, and truthy (nonempty). -/
def sdkFaviconLines (include_favicon : Bool) (r : SdkResult) : List SLine :=
  if include_favicon then
    match r.favicon with
    | some f => if f = "" then [] else [SLine.faviconLine f]
    | none => []
  else []

/-- The per-result appends of the SDK search formatter, tavily_tool.py lines
116 to 128: unconditionally title, url and content, then the conditional
score, raw-content and favicon lines. -/
def formatSdkResultLines (include_raw_content include_favicon : Bool)
    (r : SdkResult) : List SLine :=
  [SLine.titleLine r.title, SLine.urlLine r.url, SLine.contentLine r.content]
  ++ sdkScoreLines r
  ++ sdkRawContentLines include_raw_content r
  ++ sdkFaviconLines include_favicon r

/-- The answer block of tavily_tool.py lines 110 to 112: appended only when
the answer key is present and truthy (nonempty). -/
def sdkAnswerLines (resp : SdkSearchResponse) : List SLine :=
  match resp.answer with
  | some ans => if ans = "" then [] else [SLine.answerLine ans, SLine.blankLine]
  | none => []

/-- The image entries of the images section, tavily_tool.py lines 133 to
139: a Python enumerate starting at 1; a bare string becomes an indexed URL
line, an object becomes an indexed URL line with an N/A fallback for a
missing url key, followed by a description line only when a description is
present and truthy (nonempty). -/
def sdkImagesFrom (i : Nat) : List ImageEntry → List SLine
  | [] => []
  | ImageEntry.url u :: rest => SLine.imageUrlLine i u :: sdkImagesFrom (i + 1) rest
  | ImageEntry.obj u d :: rest =>
      SLine.imageUrlLine i (u.getD "N/A")
      :: ((match d with
           | some s => if s = "" then [] else [SLine.imageDescLine s]
           | none => [])
          ++ sdkImagesFrom (i + 1) rest)

/-- The images section of tavily_tool.py lines 131 to 139: emitted only when
include_images was passed and the images key is present and nonempty. -/
def sdkImagesSection (include_images : Bool) (resp : SdkSearchResponse) : List SLine :=
  if include_images then
    match resp.images with
    | some imgs => if imgs = [] then [] else SLine.imagesHeader :: sdkImagesFrom 1 imgs
    | none => []
  else []

/-- All appended output entries of the SDK search formatter, tavily_tool.py
lines 107 to 141, in order. -/
def sdkSearchOutput (a : SearchArgs) (resp : SdkSearchResponse) : List SLine :=
  sdkAnswerLines resp
  ++ [SLine.headerLine]
  ++ (resp.results.map (formatSdkResultLines a.include_raw_content a.include_favicon)).flatten
  ++ sdkImagesSection a.include_images resp

/-- The string returned by the SDK search formatter: the output entries
joined with single newlines, tavily_tool.py line 141. -/
def sdkSearchFormat (a : SearchArgs) (resp : SdkSearchResponse) : String :=
  String.intercalate "\n" ((sdkSearchOutput a resp).map SLine.render)

/-- Embedding of tavily_search of tavily_tool.py lines 38 to 141 with a
network-call counter: the client check runs first and a missing key aborts
the call with the ValueError before the single SDK search call. -/
def tavily_search_run (api_key : Option String) (a : SearchArgs)
    (resp : SdkSearchResponse) : Except String String × Nat :=
  match get_tavily_client api_key with
  | Except.error e => (Except.error e, 0)
  | Except.ok _ => (Except.ok (sdkSearchFormat a resp), 1)

/-- One crawled page of the crawl response, as consumed by the formatter of
tavily_tool.py lines 262 to 271. -/
structure CrawlPage where
  url : Option String := none
  raw_content : Option String := none
  favicon : Option String := none
deriving DecidableEq, Repr

/-- The content preview of tavily_crawl, tavily_tool.py lines 266 to 267:
content longer than 200 characters is cut to its first 200 characters plus
an ellipsis marker, shorter content is emitted as is. -/
def crawlContentPreview (raw : String) : String :=
  if raw.length > 200 then strTake raw 200 ++ "..." else raw

/-- The per-page lines of the crawl report, tavily_tool.py lines 262 to
271: an indexed URL line, then a content line with the truncated preview
when raw_content is present and truthy, then an optional favicon line. -/
def crawlPageLines (include_favicon : Bool) (i : Nat) (p : CrawlPage) : List String :=
  ["\n[" ++ toString i ++ "] URL: " ++ p.url.getD "N/A"]
  ++ (match p.raw_content with
      | some rc => if rc = "" then [] else ["Content: " ++ crawlContentPreview rc]
      | none => [])
  ++ (if include_favicon then
        match p.favicon with
        | some f => if f = "" then [] else ["Favicon: " ++ f]
        | none => []
      else [])

end Sdk

/-- A 203-character content string equal to its own first 200 characters
followed by the ellipsis marker. -/
def degenerateContent : String := String.mk (List.replicate 200 'a') ++ "..."

/-- A 201-character content string used to instantiate claim C3. -/
def longContent : String := String.mk (List.replicate 201 'b')

/-- A concrete search result used in the counterexample and witness of
claim C10. -/
def res1 : Req.SearchResult := { title := some "r1" }

/-- A second concrete search result for claim C10. -/
def res2 : Req.SearchResult := { title := some "r2" }

/-- A third concrete search result for claim C10. -/
def res3 : Req.SearchResult := { title := some "r3" }

/-- A concrete search result whose score 0.9 has a one-digit Python str
rendering. -/
def r90 : Req.SearchResult :=
  { title := some "T", url := some "U", content := some "C",
    score := some ⟨90⟩, published_date := some "D" }

/-- The title carried by an SDK output line, when it is a title line. -/
def titleOfS : Sdk.SLine → Option String
  | Sdk.SLine.titleLine t => some t
  | _ => none

/-- The score carried by an SDK output line, when it is a score line. -/
def scoreOfS : Sdk.SLine → Option Score
  | Sdk.SLine.scoreLine s => some s
  | _ => none

/-- The title carried by a requests-formatter line, when it is a
title line. -/
def titleOfR : Req.RLine → Option String
  | Req.RLine.title t => some t
  | _ => none

/-- The per-entry image rendering rule exactly as claim C9 states it: a
string entry becomes an indexed URL line; an object entry becomes an indexed
URL line with N/A for a missing url key, followed by a description line only
when a nonempty description is present. -/
def imageEntrySpecLines (i : Nat) : Sdk.ImageEntry → List String
  | Sdk.ImageEntry.url u => ["\n[" ++ toString i ++ "] URL: " ++ u]
  | Sdk.ImageEntry.obj u d =>
      ("\n[" ++ toString i ++ "] URL: " ++ u.getD "N/A")
      :: (match d with
          | some s => if s = "" then [] else ["   Description: " ++ s]
          | none => [])

/-- The per-entry rules of claim C9 applied along an image list with 1-based
indices. -/
def imagesSpecFrom (i : Nat) : List Sdk.ImageEntry → List String
  | [] => []
  | e :: rest => imageEntrySpecLines i e ++ imagesSpecFrom (i + 1) rest

section LookupLemmas

theorem lookup_cons_self {β : Type} (k : String) (v : β) (t : List (String × β)) :
    List.lookup k ((k, v) :: t) = some v := by
  simp [List.lookup]

theorem lookup_cons_ne {β : Type} {q k : String} (h : q ≠ k) (v : β) (t : List (String × β)) :
    List.lookup q ((k, v) :: t) = List.lookup q t := by
  simp only [List.lookup, beq_eq_false_iff_ne.mpr h]

theorem lookup_map_overwrite_ne {q k : String} (h : q ≠ k) (v : JValue) :
    ∀ d : Params,
      List.lookup q (d.map (fun kv => if kv.1 == k then (k, v) else kv)) = List.lookup q d := by
  intro d
  induction d with
  | nil => rfl
  | cons kv t ih =>
      obtain ⟨a, b⟩ := kv
      by_cases hak : a = k
      · subst hak
        simp only [List.map_cons, beq_self_eq_true, if_true]
        rw [lookup_cons_ne h, lookup_cons_ne h]
        exact ih
      · simp only [List.map_cons, beq_eq_false_iff_ne.mpr hak, Bool.false_eq_true, if_false]
        by_cases hqa : q = a
        · subst hqa
          rw [lookup_cons_self, lookup_cons_self]
        · rw [lookup_cons_ne hqa, lookup_cons_ne hqa]
          exact ih

theorem lookup_append_single_ne {q k : String} (h : q ≠ k) (v : JValue) :
    ∀ d : Params, List.lookup q (d ++ [(k, v)]) = List.lookup q d := by
  intro d
  induction d with
  | nil => rw [List.nil_append, lookup_cons_ne h]
  | cons kv t ih =>
      obtain ⟨a, b⟩ := kv
      by_cases hqa : q = a
      · subst hqa
        rw [List.cons_append, lookup_cons_self, lookup_cons_self]
      · rw [List.cons_append, lookup_cons_ne hqa, lookup_cons_ne hqa, ih]

theorem lookup_dictSet_ne {q k : String} (h : q ≠ k) (d : Params) (v : JValue) :
    List.lookup q (dictSet d k v) = List.lookup q d := by
  unfold dictSet
  split
  · exact lookup_map_overwrite_ne h v d
  · exact lookup_append_single_ne h v d

theorem lookup_dictSet_fresh {k : String} (d : Params) (v : JValue)
    (h : d.any (fun kv => kv.1 == k) = false) :
    List.lookup k (dictSet d k v) = some v := by
  unfold dictSet
  rw [h]
  simp only [Bool.false_eq_true, if_false]
  induction d with
  | nil => exact lookup_cons_self k v []
  | cons kv t ih =>
      obtain ⟨a, b⟩ := kv
      rw [List.any_cons, Bool.or_eq_false_iff] at h
      have hak : ¬ (k = a) := by
        intro hh
        subst hh
        simp at h
      rw [List.cons_append, lookup_cons_ne hak, ih h.2]

theorem lookup_addOpt_notMem (q : String) (params : Params) :
    ∀ kwargs : List (String × JValue), kwargs.all (fun kv => kv.1 != q) = true →
      List.lookup q (add_optional_params params kwargs) = List.lookup q params := by
  intro kwargs
  induction kwargs generalizing params with
  | nil => intro _; rfl
  | cons kv rest ih =>
      intro h
      rw [List.all_cons, Bool.and_eq_true] at h
      have hne : q ≠ kv.1 := Ne.symm (bne_iff_ne.mp h.1)
      unfold add_optional_params
      split
      · exact ih params h.2
      · rw [ih (dictSet params kv.1 kv.2) h.2, lookup_dictSet_ne hne]

theorem lookup_sdkP1_eq_sdkP0 (a : Sdk.SearchArgs) (q : String) (h : q ≠ "days") :
    List.lookup q (Sdk.sdkP1 a) = List.lookup q (Sdk.sdkP0 a) := by
  unfold Sdk.sdkP1
  cases a.days with
  | none => rfl
  | some d =>
      dsimp only
      by_cases ht : a.topic = "news"
      · rw [if_pos ht]
        exact lookup_dictSet_ne h _ _
      · rw [if_neg ht]

theorem lookup_sdk_outer (a : Sdk.SearchArgs) (q : String)
    (h1 : q ≠ "topic") (h2 : q ≠ "country") :
    List.lookup q (Sdk.sdkSearchParams a) = List.lookup q (Sdk.sdkP2 a) := by
  unfold Sdk.sdkSearchParams
  cases a.country with
  | none => rfl
  | some c =>
      dsimp only
      by_cases hc : c ≠ "" ∧ a.topic = "general"
      · rw [if_pos hc, lookup_dictSet_ne h2, lookup_dictSet_ne h1]
      · rw [if_neg hc]

theorem addOpt_skip (params : Params) (k : String) (v : JValue)
    (rest : List (String × JValue)) (h : isEmptyValue v = true) :
    add_optional_params params ((k, v) :: rest) = add_optional_params params rest := by
  conv_lhs => unfold add_optional_params
  rw [if_pos h]

theorem addOpt_take (params : Params) (k : String) (v : JValue)
    (rest : List (String × JValue)) (h : isEmptyValue v = false) :
    add_optional_params params ((k, v) :: rest) =
      add_optional_params (dictSet params k v) rest := by
  conv_lhs => unfold add_optional_params
  rw [if_neg (by rw [h]; exact Bool.false_ne_true)]

theorem any_map_overwrite_false {q k : String} (v : JValue)
    (hk : (k == q) = false) :
    ∀ d : Params, d.any (fun kv => kv.1 == q) = false →
      (d.map (fun kv => if kv.1 == k then (k, v) else kv)).any (fun kv => kv.1 == q) = false := by
  intro d
  induction d with
  | nil => intro _; rfl
  | cons kv t ih =>
      intro h
      rw [List.any_cons, Bool.or_eq_false_iff] at h
      rw [List.map_cons, List.any_cons, Bool.or_eq_false_iff]
      refine ⟨?_, ih h.2⟩
      by_cases hkvk : kv.1 == k
      · simp only [hkvk, if_true]
        exact hk
      · simp only [Bool.not_eq_true] at hkvk
        simp only [hkvk, Bool.false_eq_true, if_false]
        exact h.1

theorem any_append_single_false {q k : String} (v : JValue)
    (hk : (k == q) = false) :
    ∀ d : Params, d.any (fun kv => kv.1 == q) = false →
      (d ++ [(k, v)]).any (fun kv => kv.1 == q) = false := by
  intro d h
  rw [List.any_append, h, List.any_cons]
  simp [hk]

theorem any_dictSet_false {q k : String} (d : Params) (v : JValue)
    (h : d.any (fun kv => kv.1 == q) = false) (hk : (k == q) = false) :
    (dictSet d k v).any (fun kv => kv.1 == q) = false := by
  unfold dictSet
  split
  · exact any_map_overwrite_false v hk d h
  · exact any_append_single_false v hk d h

theorem any_key_sdkP1_false (a : Sdk.SearchArgs) (q : String)
    (h0 : (Sdk.sdkP0 a).any (fun kv => kv.1 == q) = false)
    (hd : (("days" : String) == q) = false) :
    (Sdk.sdkP1 a).any (fun kv => kv.1 == q) = false := by
  unfold Sdk.sdkP1
  cases a.days with
  | none => exact h0
  | some d =>
      dsimp only
      by_cases ht : a.topic = "news"
      · rw [if_pos ht]
        exact any_dictSet_false _ _ h0 hd
      · rw [if_neg ht]
        exact h0

theorem any_key_addOpt_false (q : String) :
    ∀ (kwargs : List (String × JValue)) (params : Params),
      params.any (fun kv => kv.1 == q) = false →
      kwargs.all (fun kv => kv.1 != q) = true →
      (add_optional_params params kwargs).any (fun kv => kv.1 == q) = false := by
  intro kwargs
  induction kwargs with
  | nil => intro params h _; exact h
  | cons kv rest ih =>
      intro params hp hall
      rw [List.all_cons, Bool.and_eq_true] at hall
      have hne : (kv.1 == q) = false := by
        have := hall.1
        simp only [bne_iff_ne, ne_eq] at this
        exact beq_eq_false_iff_ne.mpr this
      unfold add_optional_params
      split
      · exact ih params hp hall.2
      · exact ih _ (any_dictSet_false _ _ hp hne) hall.2

theorem lookup_eq_none_of_any_false {q : String} :
    ∀ d : Params, d.any (fun kv => kv.1 == q) = false → List.lookup q d = none := by
  intro d
  induction d with
  | nil => intro _; rfl
  | cons kv t ih =>
      intro h
      rw [List.any_cons, Bool.or_eq_false_iff] at h
      obtain ⟨a, b⟩ := kv
      rw [lookup_cons_ne (Ne.symm (beq_eq_false_iff_ne.mp h.1)) b t]
      exact ih h.2

theorem lookup_addOpt_found (q : String) (v : JValue)
    (rest : List (String × JValue)) (params : Params)
    (hall : rest.all (fun kv => kv.1 != q) = true)
    (hany : params.any (fun kv => kv.1 == q) = false) :
    List.lookup q (add_optional_params params ((q, v) :: rest)) =
      (if isEmptyValue v = true then none else some v) := by
  by_cases he : isEmptyValue v = true
  · rw [if_pos he, addOpt_skip _ _ _ _ he, lookup_addOpt_notMem q _ _ hall]
    exact lookup_eq_none_of_any_false params hany
  · rw [if_neg he, addOpt_take _ _ _ _ (eq_false_of_ne_true he),
        lookup_addOpt_notMem q _ _ hall]
    exact lookup_dictSet_fresh _ _ hany

theorem lookup_addOpt_target (q : String) (v : JValue) :
    ∀ (pre : List (String × JValue)) (rest : List (String × JValue)) (params : Params),
      pre.all (fun kv => kv.1 != q) = true →
      rest.all (fun kv => kv.1 != q) = true →
      params.any (fun kv => kv.1 == q) = false →
      List.lookup q (add_optional_params params (pre ++ (q, v) :: rest)) =
        (if isEmptyValue v = true then none else some v) := by
  intro pre
  induction pre with
  | nil => intro rest params _ hrest hany; exact lookup_addOpt_found q v rest params hrest hany
  | cons kv pre ih =>
      intro rest params hpre hrest hany
      rw [List.all_cons, Bool.and_eq_true] at hpre
      have hne : (kv.1 == q) = false := by
        have := hpre.1
        simp only [bne_iff_ne, ne_eq] at this
        exact beq_eq_false_iff_ne.mpr this
      obtain ⟨k1, v1⟩ := kv
      rw [List.cons_append]
      by_cases he : isEmptyValue v1 = true
      · rw [addOpt_skip _ _ _ _ he]
        exact ih rest params hpre.2 hrest hany
      · rw [addOpt_take _ _ _ _ (eq_false_of_ne_true he)]
        exact ih rest _ hpre.2 hrest (any_dictSet_false _ _ hany hne)

theorem any_key_sdkP2_false (a : Sdk.SearchArgs) (q : String)
    (h0 : (Sdk.sdkP0 a).any (fun kv => kv.1 == q) = false)
    (hd : (("days" : String) == q) = false)
    (hk : (Sdk.sdkKwargs a).all (fun kv => kv.1 != q) = true) :
    (Sdk.sdkP2 a).any (fun kv => kv.1 == q) = false := by
  unfold Sdk.sdkP2
  exact any_key_addOpt_false q (Sdk.sdkKwargs a) (Sdk.sdkP1 a)
    (any_key_sdkP1_false a q h0 hd) hk

end LookupLemmas

/-- Claim C8: in the SDK-based search operation, for every combination of
arguments, the days field is attached to the outgoing request exactly when
the caller supplied days and the topic equals news, and the country hint is
attached (lowercased) exactly when the caller supplied a nonempty country
and the topic equals general. -/
theorem claim_C8 (a : Sdk.SearchArgs) :
    List.lookup "days" (Sdk.sdkSearchParams a) =
      (match a.days with
       | some d => if a.topic = "news" then some (JValue.int d) else none
       | none => none)
  ∧ List.lookup "country" (Sdk.sdkSearchParams a) =
      (match a.country with
       | some c => if c ≠ "" ∧ a.topic = "general" then some (JValue.str c.toLower) else none
       | none => none) := by
  constructor
  · rw [lookup_sdk_outer a "days" (by decide) (by decide)]
    unfold Sdk.sdkP2
    rw [lookup_addOpt_notMem "days" _ _ (by rfl)]
    unfold Sdk.sdkP1
    cases a.days with
    | none => rfl
    | some d =>
        dsimp only
        by_cases ht : a.topic = "news"
        · rw [if_pos ht, if_pos ht]
          exact lookup_dictSet_fresh _ _ rfl
        · rw [if_neg ht, if_neg ht]
          rfl
  · unfold Sdk.sdkSearchParams
    cases a.country with
    | none =>
        dsimp only
        unfold Sdk.sdkP2
        rw [lookup_addOpt_notMem "country" _ _ (by rfl),
            lookup_sdkP1_eq_sdkP0 a "country" (by decide)]
        rfl
    | some c =>
        dsimp only
        by_cases hc : c ≠ "" ∧ a.topic = "general"
        · rw [if_pos hc, if_pos hc]
          exact lookup_dictSet_fresh _ _
            (any_dictSet_false _ _
              (any_key_sdkP2_false a "country" rfl (by decide) (by rfl)) (by decide))
        · rw [if_neg hc, if_neg hc]
          unfold Sdk.sdkP2
          rw [lookup_addOpt_notMem "country" _ _ (by rfl),
              lookup_sdkP1_eq_sdkP0 a "country" (by decide)]
          rfl

/-- Claim C1, counterexample: the requests-based search helper does not
clamp the result count; a limit of 0 is placed in the outgoing payload
unchanged, below the minimum of both result-count ranges the specification
names, and a limit of 1000 also passes through unchanged. -/
theorem claim_C1_cx :
    List.lookup "max_results" (Req.searchPayload { query := "q", limit := 0 }) =
      some (JValue.int 0)
  ∧ List.lookup "max_results" (Req.searchPayload { query := "q", limit := 1000 }) =
      some (JValue.int 1000)
  ∧ ¬ ((1 : Int) ≤ 0 ∧ (0 : Int) ≤ 20)
  ∧ (1000 : Int) ≠ 20 := by
  exact ⟨rfl, rfl, by decide, by decide⟩

/-- Claim C1, amended: only the SDK-based search clamps the result count,
into the inclusive range 5 to 20 (0 becomes 5, 1000 becomes 20, nothing is
rejected); the requests-based search helper places the callers limit in the
outgoing request unchanged. -/
theorem claim_C1 (a : Sdk.SearchArgs) :
    List.lookup "max_results" (Sdk.sdkSearchParams a) =
      some (JValue.int (min (max a.max_results 5) 20))
  ∧ (5 ≤ min (max a.max_results 5) 20 ∧ min (max a.max_results 5) 20 ≤ 20)
  ∧ List.lookup "max_results"
      (Sdk.sdkSearchParams { query := "q", max_results := 0 }) = some (JValue.int 5)
  ∧ List.lookup "max_results"
      (Sdk.sdkSearchParams { query := "q", max_results := 1000 }) = some (JValue.int 20)
  ∧ (∀ p : Req.PerformSearchArgs,
      List.lookup "max_results" (Req.searchPayload p) = some (JValue.int p.limit)) := by
  refine ⟨?_, ⟨le_min (le_max_right _ _) (by norm_num), min_le_right _ _⟩, rfl, rfl, ?_⟩
  · rw [lookup_sdk_outer a "max_results" (by decide) (by decide)]
    unfold Sdk.sdkP2
    rw [lookup_addOpt_notMem "max_results" _ _ (by rfl),
        lookup_sdkP1_eq_sdkP0 a "max_results" (by decide)]
    rfl
  · intro p
    unfold Req.searchPayload
    by_cases ht : (p.topic == "news") = true
    · rw [if_pos ht]
      exact lookup_dictSet_ne (by decide) _ _ |>.trans rfl
    · rw [if_neg ht]
      rfl

/-- Claim C2, counterexample: the requests-based search helper always sends
the keys include_domains and exclude_domains with empty-list values, so an
optional field left empty by the caller does appear in the outgoing
payload. -/
theorem claim_C2_cx :
    List.lookup "include_domains" (Req.searchPayload { query := "q" }) =
      some (JValue.strList [])
  ∧ List.lookup "exclude_domains" (Req.searchPayload { query := "q" }) =
      some (JValue.strList []) := by
  exact ⟨rfl, rfl⟩

/-- Claim C2, amended: in the SDK-based search, every optional field left
unset, empty-string or empty-list by the caller is omitted from the outgoing
request, and appears exactly when its value is nonempty; the requests-based
helper instead always sends include_domains and exclude_domains as empty
lists. -/
theorem claim_C2 (a : Sdk.SearchArgs) :
    List.lookup "time_range" (Sdk.sdkSearchParams a) =
      (match a.time_range with
       | some t => if t = "" then none else some (JValue.str t)
       | none => none)
  ∧ List.lookup "include_domains" (Sdk.sdkSearchParams a) =
      (match a.include_domains with
       | some l => if l = [] then none else some (JValue.strList l)
       | none => none)
  ∧ List.lookup "exclude_domains" (Sdk.sdkSearchParams a) =
      (match a.exclude_domains with
       | some l => if l = [] then none else some (JValue.strList l)
       | none => none)
  ∧ List.lookup "include_favicon" (Sdk.sdkSearchParams a) =
      (if a.include_favicon then some (JValue.bool true) else none)
  ∧ (∀ p : Req.PerformSearchArgs,
      List.lookup "include_domains" (Req.searchPayload p) = some (JValue.strList [])
      ∧ List.lookup "exclude_domains" (Req.searchPayload p) = some (JValue.strList [])) := by
  refine ⟨?_, ?_, ?_, ?_, ?_⟩
  · rw [lookup_sdk_outer a "time_range" (by decide) (by decide)]
    unfold Sdk.sdkP2
    have h1 := lookup_addOpt_target "time_range" (optStr a.time_range) []
      [("include_domains", optStrList a.include_domains),
       ("exclude_domains", optStrList a.exclude_domains),
       ("include_favicon", if a.include_favicon then JValue.bool true else JValue.null)]
      (Sdk.sdkP1 a) (by rfl) (by rfl)
      (any_key_sdkP1_false a "time_range" rfl (by decide))
    refine Eq.trans h1 ?_
    cases a.time_range with
    | none => rfl
    | some t =>
        dsimp only [optStr]
        by_cases hte : t = ""
        · subst hte
          rfl
        · rw [if_neg (by simp [isEmptyValue, hte]), if_neg hte]
  · rw [lookup_sdk_outer a "include_domains" (by decide) (by decide)]
    unfold Sdk.sdkP2
    have h1 := lookup_addOpt_target "include_domains" (optStrList a.include_domains)
      [("time_range", optStr a.time_range)]
      [("exclude_domains", optStrList a.exclude_domains),
       ("include_favicon", if a.include_favicon then JValue.bool true else JValue.null)]
      (Sdk.sdkP1 a) (by rfl) (by rfl)
      (any_key_sdkP1_false a "include_domains" rfl (by decide))
    refine Eq.trans h1 ?_
    cases a.include_domains with
    | none => rfl
    | some l =>
        dsimp only [optStrList]
        by_cases hl : l = []
        · subst hl
          rfl
        · rw [if_neg (by simp [isEmptyValue, List.isEmpty_iff, hl]), if_neg hl]
  · rw [lookup_sdk_outer a "exclude_domains" (by decide) (by decide)]
    unfold Sdk.sdkP2
    have h1 := lookup_addOpt_target "exclude_domains" (optStrList a.exclude_domains)
      [("time_range", optStr a.time_range),
       ("include_domains", optStrList a.include_domains)]
      [("include_favicon", if a.include_favicon then JValue.bool true else JValue.null)]
      (Sdk.sdkP1 a) (by rfl) (by rfl)
      (any_key_sdkP1_false a "exclude_domains" rfl (by decide))
    refine Eq.trans h1 ?_
    cases a.exclude_domains with
    | none => rfl
    | some l =>
        dsimp only [optStrList]
        by_cases hl : l = []
        · subst hl
          rfl
        · rw [if_neg (by simp [isEmptyValue, List.isEmpty_iff, hl]), if_neg hl]
  · rw [lookup_sdk_outer a "include_favicon" (by decide) (by decide)]
    unfold Sdk.sdkP2
    have h1 := lookup_addOpt_target "include_favicon"
      (if a.include_favicon then JValue.bool true else JValue.null)
      [("time_range", optStr a.time_range),
       ("include_domains", optStrList a.include_domains),
       ("exclude_domains", optStrList a.exclude_domains)]
      [] (Sdk.sdkP1 a) (by rfl) (by rfl)
      (any_key_sdkP1_false a "include_favicon" rfl (by decide))
    refine Eq.trans h1 ?_
    cases a.include_favicon with
    | true => rfl
    | false => rfl
  · intro p
    constructor
    · unfold Req.searchPayload
      by_cases ht : (p.topic == "news") = true
      · rw [if_pos ht]
        exact lookup_dictSet_ne (by decide) _ _ |>.trans rfl
      · rw [if_neg ht]
        rfl
    · unfold Req.searchPayload
      by_cases ht : (p.topic == "news") = true
      · rw [if_pos ht]
        exact lookup_dictSet_ne (by decide) _ _ |>.trans rfl
      · rw [if_neg ht]
        rfl

set_option maxRecDepth 4000 in
/-- Claim C3, counterexample: for a 203-character content that ends in the
ellipsis marker, the crawl preview (first 200 characters plus the marker)
is the full string itself, so the full string is emitted in the report. -/
theorem claim_C3_cx :
    200 < degenerateContent.length
  ∧ Sdk.crawlContentPreview degenerateContent = degenerateContent := by
  exact ⟨by decide, by decide⟩

/-- Claim C3, amended: for content longer than 200 characters the crawl
preview is exactly the first 200 characters followed by the ellipsis marker,
and it differs from the full content except in the degenerate case where the
content equals its own first 200 characters followed by the marker; the
research report always emits the first 200 characters of raw content with
the ellipsis marker appended by its format string. -/
theorem claim_C3 :
    (∀ c : String, 200 < c.length →
        Sdk.crawlContentPreview c = strTake c 200 ++ "..."
      ∧ (Sdk.crawlContentPreview c = c ↔ strTake c 200 ++ "..." = c))
  ∧ (∀ (i : Nat) (r : Req.SearchResult) (rc : String), r.raw_content = some rc →
        Req.RLine.rawPreview (strTake rc 200) ∈ Req.researchResultBlock i r
      ∧ Req.RLine.render (Req.RLine.rawPreview (strTake rc 200)) =
          "Raw Content Preview: " ++ strTake rc 200 ++ "...\n") := by
  constructor
  · intro c h
    unfold Sdk.crawlContentPreview
    rw [if_pos h]
    exact ⟨rfl, Iff.rfl⟩
  · intro i r rc h
    constructor
    · unfold Req.researchResultBlock
      rw [h]
      simp
    · rfl

set_option maxRecDepth 4000 in
/-- Claim C3, witness: the amended claim instantiated at a 201-character
content string and at a result object carrying raw content. -/
theorem claim_C3_wit :
    Sdk.crawlContentPreview longContent = strTake longContent 200 ++ "..."
  ∧ Req.RLine.rawPreview (strTake "x" 200) ∈
      Req.researchResultBlock 1 { raw_content := some "x" } :=
  ⟨(claim_C3.1 longContent (by decide)).1,
   (claim_C3.2 1 { raw_content := some "x" } "x" rfl).1⟩

theorem perform_run_zero_results (k : String) (hk : k ≠ "") (a : Req.PerformSearchArgs) :
    Req.perform_tavily_search_run (some k) a (Req.RemoteOutcome.resp 200 (some [])) =
      ([], 1) := by
  unfold Req.perform_tavily_search_run Req.performSearchBody
  simp [hk, pySliceTo]

/-- Claim C4, counterexample: with zero results from a successful remote
call, two operations return different sentinel strings, so the sentinel is
not the same regardless of which operation produced it. -/
theorem claim_C4_cx :
    Req.tavily_search (some "k") "q" 5 (Req.RemoteOutcome.resp 200 (some [])) =
      "No results found or search error occurred."
  ∧ Req.tavily_news_search (some "k") "q" 5 (Req.RemoteOutcome.resp 200 (some [])) =
      "No news results found or search error occurred."
  ∧ "No results found or search error occurred." ≠
      "No news results found or search error occurred." := by
  exact ⟨rfl, rfl, by decide⟩

/-- Claim C4, amended: with zero results from a successful remote call each
requests-based operation returns a fixed sentinel string, but the sentinel
text is operation-specific (search and image search share one sentinel, news
and research have their own), and the SDK-based search emits only its result
header with no sentinel at all. -/
theorem claim_C4 (k query : String) (limit : Int) (hk : k ≠ "") :
    Req.tavily_search (some k) query limit (Req.RemoteOutcome.resp 200 (some [])) =
      "No results found or search error occurred."
  ∧ Req.tavily_search_with_images (some k) query limit (Req.RemoteOutcome.resp 200 (some [])) =
      "No results found or search error occurred."
  ∧ Req.tavily_news_search (some k) query limit (Req.RemoteOutcome.resp 200 (some [])) =
      "No news results found or search error occurred."
  ∧ Req.tavily_research (some k) query limit (Req.RemoteOutcome.resp 200 (some [])) =
      "No research results found or search error occurred."
  ∧ (∀ a : Sdk.SearchArgs,
      Sdk.sdkSearchFormat a { answer := none, results := [], images := none } =
        "Detailed Results:") := by
  refine ⟨?_, ?_, ?_, ?_, ?_⟩
  · unfold Req.tavily_search Req.tavily_search_run
    rw [perform_run_zero_results k hk]
    rfl
  · unfold Req.tavily_search_with_images Req.tavily_search_with_images_run
    rw [perform_run_zero_results k hk]
    rfl
  · unfold Req.tavily_news_search Req.tavily_news_search_run
    rw [perform_run_zero_results k hk]
    rfl
  · unfold Req.tavily_research Req.tavily_research_run
    rw [perform_run_zero_results k hk]
    rfl
  · intro a
    unfold Sdk.sdkSearchFormat Sdk.sdkSearchOutput Sdk.sdkAnswerLines Sdk.sdkImagesSection
    cases a.include_images <;> rfl

/-- Claim C4, witness: the amended claim instantiated at a concrete key,
query and limit. -/
theorem claim_C4_wit :
    Req.tavily_search (some "key") "q" 5 (Req.RemoteOutcome.resp 200 (some [])) =
      "No results found or search error occurred."
  ∧ Req.tavily_research (some "key") "q" 5 (Req.RemoteOutcome.resp 200 (some [])) =
      "No research results found or search error occurred." :=
  ⟨(claim_C4 "key" "q" 5 (by decide)).1, (claim_C4 "key" "q" 5 (by decide)).2.2.2.1⟩

/-- Claim C5, counterexample: with no API key configured, the requests-based
search makes zero network calls but returns an ordinary result string (its
usual sentinel) instead of failing, so the missing-credential failure is
silently swallowed rather than fatal. -/
theorem claim_C5_cx :
    Req.tavily_search_run none "q" 5 Req.RemoteOutcome.exc =
      ("No results found or search error occurred.", 0) := rfl

/-- Claim C5, amended: with a missing or empty TAVILY_KEY every operation
makes zero network calls; the SDK-based search raises a ValueError before
dispatch, while each requests-based operation instead swallows the missing
credential and returns its ordinary sentinel string. -/
theorem claim_C5 :
    (∀ (a : Sdk.SearchArgs) (resp : Sdk.SdkSearchResponse),
        Sdk.tavily_search_run none a resp =
          (Except.error "TAVILY_KEY environment variable is not set.", 0)
      ∧ Sdk.tavily_search_run (some "") a resp =
          (Except.error "TAVILY_KEY environment variable is not set.", 0))
  ∧ (∀ (query : String) (limit : Int) (remote : Req.RemoteOutcome),
        Req.tavily_search_run none query limit remote =
          ("No results found or search error occurred.", 0)
      ∧ Req.tavily_search_run (some "") query limit remote =
          ("No results found or search error occurred.", 0)
      ∧ Req.tavily_search_with_images_run none query limit remote =
          ("No results found or search error occurred.", 0)
      ∧ Req.tavily_search_with_images_run (some "") query limit remote =
          ("No results found or search error occurred.", 0)
      ∧ Req.tavily_news_search_run none query limit remote =
          ("No news results found or search error occurred.", 0)
      ∧ Req.tavily_news_search_run (some "") query limit remote =
          ("No news results found or search error occurred.", 0)
      ∧ Req.tavily_research_run none query limit remote =
          ("No research results found or search error occurred.", 0)
      ∧ Req.tavily_research_run (some "") query limit remote =
          ("No research results found or search error occurred.", 0)) := by
  exact ⟨fun a resp => ⟨rfl, rfl⟩,
         fun query limit remote => ⟨rfl, rfl, rfl, rfl, rfl, rfl, rfl, rfl⟩⟩

/-- Claim C10, counterexample: on a successful call with a negative limit of
-1 and three results, the helper returns the first two results (Python list
slicing drops the last element), which is not at most the first -1 results. -/
theorem claim_C10_cx :
    Req.perform_tavily_search (some "k") { query := "q", limit := -1 }
        (Req.RemoteOutcome.resp 200 (some [res1, res2, res3])) = [res1, res2]
  ∧ ¬ ((([res1, res2] : List Req.SearchResult).length : Int) ≤ -1) := by
  exact ⟨rfl, by decide⟩

/-- Claim C10, amended: the requests-based search helper always returns a
list and never raises; it returns the empty list on a missing or empty API
key, on a raised exception (which its except handler catches), on a non-200
status, and on a missing results key; on success it returns the Python slice
of the results by the limit, which for every nonnegative limit is a prefix
of the results of length at most the limit. -/
theorem claim_C10 :
    (∀ (a : Req.PerformSearchArgs) (remote : Req.RemoteOutcome),
        Req.perform_tavily_search none a remote = []
      ∧ Req.perform_tavily_search (some "") a remote = [])
  ∧ (∀ (k : String) (a : Req.PerformSearchArgs), k ≠ "" →
        (Req.performSearchBody (some k) a Req.RemoteOutcome.exc).1 = Except.error ()
      ∧ Req.perform_tavily_search (some k) a Req.RemoteOutcome.exc = [])
  ∧ (∀ (k : String) (a : Req.PerformSearchArgs) (status : Nat)
        (results : Option (List Req.SearchResult)), k ≠ "" → status ≠ 200 →
        Req.perform_tavily_search (some k) a (Req.RemoteOutcome.resp status results) = [])
  ∧ (∀ (k : String) (a : Req.PerformSearchArgs) (status : Nat), k ≠ "" →
        Req.perform_tavily_search (some k) a (Req.RemoteOutcome.resp status none) = [])
  ∧ (∀ (k : String) (a : Req.PerformSearchArgs) (rs : List Req.SearchResult), k ≠ "" →
        Req.perform_tavily_search (some k) a (Req.RemoteOutcome.resp 200 (some rs)) =
          pySliceTo rs a.limit)
  ∧ (∀ (rs : List Req.SearchResult) (lim : Int), 0 ≤ lim →
        pySliceTo rs lim = rs.take lim.toNat
      ∧ (pySliceTo rs lim).length ≤ lim.toNat
      ∧ List.IsPrefix (pySliceTo rs lim) rs) := by
  refine ⟨?_, ?_, ?_, ?_, ?_, ?_⟩
  · intro a remote
    exact ⟨rfl, rfl⟩
  · intro k a hk
    unfold Req.perform_tavily_search Req.perform_tavily_search_run Req.performSearchBody
    simp [hk]
  · intro k a status results hk hst
    unfold Req.perform_tavily_search Req.perform_tavily_search_run Req.performSearchBody
    simp [hk, hst]
  · intro k a status hk
    by_cases hst : status = 200
    · subst hst
      unfold Req.perform_tavily_search Req.perform_tavily_search_run Req.performSearchBody
      simp [hk]
    · unfold Req.perform_tavily_search Req.perform_tavily_search_run Req.performSearchBody
      simp [hk, hst]
  · intro k a rs hk
    unfold Req.perform_tavily_search Req.perform_tavily_search_run Req.performSearchBody
    simp [hk]
  · intro rs lim hl
    unfold pySliceTo
    rw [if_pos hl]
    exact ⟨rfl,
      le_trans (le_of_eq (List.length_take _ _)) (min_le_left _ _),
      List.take_prefix _ _⟩

/-- Claim C10, witness: the amended claim instantiated at a concrete key and
concrete remote outcomes. -/
theorem claim_C10_wit :
    Req.perform_tavily_search (some "k") { query := "q", limit := 5 }
      Req.RemoteOutcome.exc = []
  ∧ Req.perform_tavily_search (some "k") { query := "q", limit := 5 }
      (Req.RemoteOutcome.resp 404 (some [res1])) = []
  ∧ Req.perform_tavily_search (some "k") { query := "q", limit := 5 }
      (Req.RemoteOutcome.resp 200 none) = []
  ∧ pySliceTo [res1, res2] (1 : Int) = [res1] := by
  refine ⟨(claim_C10.2.1 "k" _ (by decide)).2,
          claim_C10.2.2.1 "k" _ 404 _ (by decide) (by decide),
          claim_C10.2.2.2.1 "k" _ 200 (by decide), ?_⟩
  · rw [(claim_C10.2.2.2.2.2 [res1, res2] 1 (by decide)).1]
    rfl

theorem scoreLine_not_mem_rawLines (s : Score) (irc : Bool) (r : Sdk.SdkResult) :
    Sdk.SLine.scoreLine s ∉ Sdk.sdkRawContentLines irc r := by
  unfold Sdk.sdkRawContentLines
  cases irc
  · simp
  · cases r.raw_content with
    | none => simp
    | some rc =>
        dsimp only
        by_cases h : rc = ""
        · rw [if_pos h]
          simp
        · rw [if_neg h]
          simp

theorem scoreLine_not_mem_favLines (s : Score) (ifav : Bool) (r : Sdk.SdkResult) :
    Sdk.SLine.scoreLine s ∉ Sdk.sdkFaviconLines ifav r := by
  unfold Sdk.sdkFaviconLines
  cases ifav
  · simp
  · cases r.favicon with
    | none => simp
    | some f =>
        dsimp only
        by_cases h : f = ""
        · rw [if_pos h]
          simp
        · rw [if_neg h]
          simp

theorem scoreLine_mem_scoreLines_iff (s : Score) (r : Sdk.SdkResult) :
    Sdk.SLine.scoreLine s ∈ Sdk.sdkScoreLines r ↔ r.score = some s := by
  unfold Sdk.sdkScoreLines
  cases hs : r.score <;> simp [eq_comm]

/-- Claim C6, counterexample: the SDK-based search listing does not emit the
score and published-date lines unconditionally; for a result object without
a score, the rendered block has exactly a title, a URL and a content line
and nothing else, with no N/A placeholder lines. -/
theorem claim_C6_cx :
    Sdk.formatSdkResultLines false false { title := "T", url := "U", content := "C" } =
      [Sdk.SLine.titleLine "T", Sdk.SLine.urlLine "U", Sdk.SLine.contentLine "C"]
  ∧ Sdk.sdkSearchFormat { query := "q" }
      { results := [{ title := "T", url := "U", content := "C" }] } =
      "Detailed Results:\n\nTitle: T\nURL: U\nContent: C" := ⟨rfl, rfl⟩

/-- Claim C6, amended: in the requests-based listings every result block
unconditionally carries title, URL, content, score and published-date lines,
with the literal N/A standing in for any missing field; in the SDK-based
search listing only title, URL and content are unconditional, and a score
line appears exactly when the result carries a score (there is no
published-date line at all). -/
theorem claim_C6 :
    (∀ (i : Nat) (r : Req.SearchResult),
        Req.RLine.title (r.title.getD "N/A") ∈ Req.searchResultBlock i r
      ∧ Req.RLine.url (r.url.getD "N/A") ∈ Req.searchResultBlock i r
      ∧ Req.RLine.content (r.content.getD "N/A") ∈ Req.searchResultBlock i r
      ∧ Req.RLine.score (Req.scoreField r.score) ∈ Req.searchResultBlock i r
      ∧ Req.RLine.published (r.published_date.getD "N/A") ∈ Req.searchResultBlock i r)
  ∧ (∀ (irc ifav : Bool) (r : Sdk.SdkResult),
      (∃ s, Sdk.SLine.scoreLine s ∈ Sdk.formatSdkResultLines irc ifav r) ↔
        (Sdk.SdkResult.score r).isSome = true) := by
  constructor
  · intro i r
    refine ⟨?_, ?_, ?_, ?_, ?_⟩ <;> simp [Req.searchResultBlock]
  · intro irc ifav r
    unfold Sdk.formatSdkResultLines
    constructor
    · rintro ⟨s, hs⟩
      rw [List.mem_append] at hs
      rcases hs with hs | hfav
      · rw [List.mem_append] at hs
        rcases hs with hs | hraw
        · rw [List.mem_append] at hs
          rcases hs with hhead | hscore
          · simp at hhead
          · rw [scoreLine_mem_scoreLines_iff] at hscore
            rw [hscore]
            rfl
        · exact absurd hraw (scoreLine_not_mem_rawLines s irc r)
      · exact absurd hfav (scoreLine_not_mem_favLines s ifav r)
    · intro h
      obtain ⟨sc, hsc⟩ := Option.isSome_iff_exists.mp h
      refine ⟨sc, ?_⟩
      rw [List.mem_append, List.mem_append, List.mem_append]
      exact Or.inl (Or.inl (Or.inr ((scoreLine_mem_scoreLines_iff sc r).mpr hsc)))

/-- Claim C9: for every image list mixing bare URL strings and structured
objects, the rendered SDK images section equals, entry by entry in order,
the per-type rule the claim states: a string entry becomes an indexed URL
line, an object entry becomes an indexed URL line with N/A for a missing url
key followed by a description line exactly when a nonempty description is
present; the formatter is total, so no input of this shape can make it
throw. -/
theorem claim_C9 : ∀ (imgs : List Sdk.ImageEntry) (i : Nat),
    (Sdk.sdkImagesFrom i imgs).map Sdk.SLine.render = imagesSpecFrom i imgs := by
  intro imgs
  induction imgs with
  | nil => intro i; rfl
  | cons e rest ih =>
      intro i
      cases e with
      | url u =>
          show Sdk.SLine.render (Sdk.SLine.imageUrlLine i u) ::
              (Sdk.sdkImagesFrom (i + 1) rest).map Sdk.SLine.render = _
          rw [ih (i + 1)]
          rfl
      | obj u d =>
          show Sdk.SLine.render (Sdk.SLine.imageUrlLine i (u.getD "N/A")) ::
              ((match d with
                | some s => if s = "" then [] else [Sdk.SLine.imageDescLine s]
                | none => []) ++ Sdk.sdkImagesFrom (i + 1) rest).map Sdk.SLine.render = _
          rw [List.map_append, ih (i + 1)]
          cases d with
          | none => rfl
          | some s =>
              dsimp only [imagesSpecFrom, imageEntrySpecLines]
              by_cases hd : s = ""
              · rw [if_pos hd, if_pos hd]
                rfl
              · rw [if_neg hd, if_neg hd]
                rfl

theorem filterMap_titleOfS_answer (resp : Sdk.SdkSearchResponse) :
    (Sdk.sdkAnswerLines resp).filterMap titleOfS = [] := by
  unfold Sdk.sdkAnswerLines
  cases resp.answer with
  | none => rfl
  | some ans =>
      dsimp only
      by_cases h : ans = ""
      · rw [if_pos h]
        rfl
      · rw [if_neg h]
        rfl

theorem filterMap_titleOfS_result (irc ifav : Bool) (r : Sdk.SdkResult) :
    (Sdk.formatSdkResultLines irc ifav r).filterMap titleOfS = [r.title] := by
  unfold Sdk.formatSdkResultLines
  rw [List.filterMap_append, List.filterMap_append, List.filterMap_append]
  have h2 : (Sdk.sdkScoreLines r).filterMap titleOfS = [] := by
    unfold Sdk.sdkScoreLines
    cases r.score <;> rfl
  have h3 : (Sdk.sdkRawContentLines irc r).filterMap titleOfS = [] := by
    unfold Sdk.sdkRawContentLines
    cases irc
    · rfl
    · cases r.raw_content with
      | none => rfl
      | some rc =>
          dsimp only
          by_cases h : rc = ""
          · rw [if_pos h]
            rfl
          · rw [if_neg h]
            rfl
  have h4 : (Sdk.sdkFaviconLines ifav r).filterMap titleOfS = [] := by
    unfold Sdk.sdkFaviconLines
    cases ifav
    · rfl
    · cases r.favicon with
      | none => rfl
      | some f =>
          dsimp only
          by_cases h : f = ""
          · rw [if_pos h]
            rfl
          · rw [if_neg h]
            rfl
  rw [h2, h3, h4]
  rfl

theorem filterMap_titleOfS_images (imgs : List Sdk.ImageEntry) : ∀ i : Nat,
    (Sdk.sdkImagesFrom i imgs).filterMap titleOfS = [] := by
  induction imgs with
  | nil => intro i; rfl
  | cons e rest ih =>
      intro i
      cases e with
      | url u =>
          show (Sdk.SLine.imageUrlLine i u :: Sdk.sdkImagesFrom (i + 1) rest).filterMap
              titleOfS = []
          rw [List.filterMap_cons]
          exact ih (i + 1)
      | obj u d =>
          show (Sdk.SLine.imageUrlLine i (u.getD "N/A") ::
              ((match d with
                | some s => if s = "" then [] else [Sdk.SLine.imageDescLine s]
                | none => []) ++ Sdk.sdkImagesFrom (i + 1) rest)).filterMap titleOfS = []
          rw [List.filterMap_cons]
          dsimp only [titleOfS]
          rw [List.filterMap_append, ih (i + 1)]
          cases d with
          | none => rfl
          | some s =>
              dsimp only
              by_cases hd : s = ""
              · rw [if_pos hd]
                rfl
              · rw [if_neg hd]
                rfl

theorem filterMap_titleOfS_imagesSection (ii : Bool) (resp : Sdk.SdkSearchResponse) :
    (Sdk.sdkImagesSection ii resp).filterMap titleOfS = [] := by
  unfold Sdk.sdkImagesSection
  cases ii
  · rfl
  · cases resp.images with
    | none => rfl
    | some imgs =>
        rw [if_pos rfl]
        dsimp only
        by_cases h : imgs = []
        · rw [if_pos h]
          rfl
        · rw [if_neg h, List.filterMap_cons]
          exact filterMap_titleOfS_images imgs 1

theorem filterMap_scoreOfS_answer (resp : Sdk.SdkSearchResponse) :
    (Sdk.sdkAnswerLines resp).filterMap scoreOfS = [] := by
  unfold Sdk.sdkAnswerLines
  cases resp.answer with
  | none => rfl
  | some ans =>
      dsimp only
      by_cases h : ans = ""
      · rw [if_pos h]
        rfl
      · rw [if_neg h]
        rfl

theorem filterMap_scoreOfS_result (irc ifav : Bool) (r : Sdk.SdkResult) :
    (Sdk.formatSdkResultLines irc ifav r).filterMap scoreOfS =
      (Sdk.SdkResult.score r).toList := by
  unfold Sdk.formatSdkResultLines
  rw [List.filterMap_append, List.filterMap_append, List.filterMap_append]
  have h2 : (Sdk.sdkScoreLines r).filterMap scoreOfS = (Sdk.SdkResult.score r).toList := by
    unfold Sdk.sdkScoreLines
    cases r.score <;> rfl
  have h3 : (Sdk.sdkRawContentLines irc r).filterMap scoreOfS = [] := by
    unfold Sdk.sdkRawContentLines
    cases irc
    · rfl
    · cases r.raw_content with
      | none => rfl
      | some rc =>
          dsimp only
          by_cases h : rc = ""
          · rw [if_pos h]
            rfl
          · rw [if_neg h]
            rfl
  have h4 : (Sdk.sdkFaviconLines ifav r).filterMap scoreOfS = [] := by
    unfold Sdk.sdkFaviconLines
    cases ifav
    · rfl
    · cases r.favicon with
      | none => rfl
      | some f =>
          dsimp only
          by_cases h : f = ""
          · rw [if_pos h]
            rfl
          · rw [if_neg h]
            rfl
  rw [h2, h3, h4]
  simp [scoreOfS]

theorem filterMap_scoreOfS_images (imgs : List Sdk.ImageEntry) : ∀ i : Nat,
    (Sdk.sdkImagesFrom i imgs).filterMap scoreOfS = [] := by
  induction imgs with
  | nil => intro i; rfl
  | cons e rest ih =>
      intro i
      cases e with
      | url u =>
          show (Sdk.SLine.imageUrlLine i u :: Sdk.sdkImagesFrom (i + 1) rest).filterMap
              scoreOfS = []
          rw [List.filterMap_cons]
          exact ih (i + 1)
      | obj u d =>
          show (Sdk.SLine.imageUrlLine i (u.getD "N/A") ::
              ((match d with
                | some s => if s = "" then [] else [Sdk.SLine.imageDescLine s]
                | none => []) ++ Sdk.sdkImagesFrom (i + 1) rest)).filterMap scoreOfS = []
          rw [List.filterMap_cons]
          dsimp only [scoreOfS]
          rw [List.filterMap_append, ih (i + 1)]
          cases d with
          | none => rfl
          | some s =>
              dsimp only
              by_cases hd : s = ""
              · rw [if_pos hd]
                rfl
              · rw [if_neg hd]
                rfl

theorem filterMap_scoreOfS_imagesSection (ii : Bool) (resp : Sdk.SdkSearchResponse) :
    (Sdk.sdkImagesSection ii resp).filterMap scoreOfS = [] := by
  unfold Sdk.sdkImagesSection
  cases ii
  · rfl
  · cases resp.images with
    | none => rfl
    | some imgs =>
        rw [if_pos rfl]
        dsimp only
        by_cases h : imgs = []
        · rw [if_pos h]
          rfl
        · rw [if_neg h, List.filterMap_cons]
          exact filterMap_scoreOfS_images imgs 1

theorem toString_nat_length_one (n : Nat) (h : n < 10) : (toString n).length = 1 := by
  interval_cases n <;> rfl

theorem toString_nat_length_two (n : Nat) (h1 : 10 ≤ n) (h2 : n < 100) :
    (toString n).length = 2 := by
  interval_cases n <;> rfl

theorem toFixed2_shape (s : Score) :
    ∃ f : String, Score.toFixed2 s = toString (s.hundredths / 100) ++ "." ++ f
      ∧ f.length = 2 := by
  unfold Score.toFixed2
  by_cases h : s.hundredths % 100 < 10
  · refine ⟨"0" ++ toString (s.hundredths % 100), ?_, ?_⟩
    · rw [if_pos h]
      apply String.ext
      simp [String.data_append]
    · rw [String.length_append, toString_nat_length_one _ h]
      rfl
  · rw [if_neg h]
    exact ⟨toString (s.hundredths % 100), rfl,
      toString_nat_length_two _ (le_of_not_lt h) (Nat.mod_lt _ (by norm_num))⟩

/-- Claim C7, counterexample: the requests-based listing renders a present
score with Python str rather than with two decimal places; a score of 0.9
appears as the line Score: 0.9 (one decimal digit), and no line Score: 0.90
is emitted. -/
theorem claim_C7_cx :
    Req.searchResultBlock 1 r90 =
      [Req.RLine.header "Result 1:", Req.RLine.title "T", Req.RLine.url "U",
       Req.RLine.content "C", Req.RLine.score "0.9", Req.RLine.published "D",
       Req.RLine.blank]
  ∧ Req.RLine.score "0.90" ∉ Req.searchResultBlock 1 r90
  ∧ Req.tavily_search (some "k") "q" 5 (Req.RemoteOutcome.resp 200 (some [r90])) =
      "Result 1:\nTitle: T\nURL: U\nContent: C\nScore: 0.9\nPublished Date: D\n\n" := by
  exact ⟨rfl, by decide, rfl⟩

/-- Claim C7, amended: both formatters emit the results in exactly the order
the remote service returned them; the SDK-based search renders every present
score with exactly two decimal places, while the requests-based listing
renders the score with Python str (so 0.9 keeps one decimal digit); the
concrete two-result scenario with titles T1, T2 and scores 0.91, 0.77 yields
both titles in input order with scores rendered as 0.91 and 0.77. -/
theorem claim_C7 :
    (∀ (a : Sdk.SearchArgs) (resp : Sdk.SdkSearchResponse),
        (Sdk.sdkSearchOutput a resp).filterMap titleOfS =
          resp.results.map Sdk.SdkResult.title
      ∧ (Sdk.sdkSearchOutput a resp).filterMap scoreOfS =
          resp.results.filterMap Sdk.SdkResult.score)
  ∧ (∀ s : Score,
        Sdk.SLine.render (Sdk.SLine.scoreLine s) = "Score: " ++ Score.toFixed2 s
      ∧ ∃ f : String, Score.toFixed2 s = toString (s.hundredths / 100) ++ "." ++ f
          ∧ f.length = 2)
  ∧ (∀ (rs : List Req.SearchResult) (i : Nat),
        (((Req.enumFrom i rs).map (fun p => Req.searchResultBlock p.1 p.2)).flatten).filterMap
            titleOfR
          = rs.map (fun r => r.title.getD "N/A"))
  ∧ Sdk.sdkSearchFormat { query := "q" }
      { answer := none,
        results := [{ title := "T1", url := "U1", content := "C1", score := some ⟨91⟩ },
                    { title := "T2", url := "U2", content := "C2", score := some ⟨77⟩ }],
        images := none } =
      "Detailed Results:\n\nTitle: T1\nURL: U1\nContent: C1\nScore: 0.91\n\nTitle: T2\nURL: U2\nContent: C2\nScore: 0.77" := by
  refine ⟨?_, ?_, ?_, rfl⟩
  · intro a resp
    constructor
    · unfold Sdk.sdkSearchOutput
      rw [List.filterMap_append, List.filterMap_append, List.filterMap_append,
          filterMap_titleOfS_answer, filterMap_titleOfS_imagesSection]
      have hmid : ∀ rs : List Sdk.SdkResult,
          ((rs.map (Sdk.formatSdkResultLines a.include_raw_content
              a.include_favicon)).flatten).filterMap titleOfS
            = rs.map Sdk.SdkResult.title := by
        intro rs
        induction rs with
        | nil => rfl
        | cons r rest ih =>
            rw [List.map_cons, List.flatten_cons, List.filterMap_append,
                filterMap_titleOfS_result, ih, List.map_cons]
            rfl
      rw [hmid]
      simp [titleOfS]
    · unfold Sdk.sdkSearchOutput
      rw [List.filterMap_append, List.filterMap_append, List.filterMap_append,
          filterMap_scoreOfS_answer, filterMap_scoreOfS_imagesSection]
      have hmid : ∀ rs : List Sdk.SdkResult,
          ((rs.map (Sdk.formatSdkResultLines a.include_raw_content
              a.include_favicon)).flatten).filterMap scoreOfS
            = rs.filterMap Sdk.SdkResult.score := by
        intro rs
        induction rs with
        | nil => rfl
        | cons r rest ih =>
            rw [List.map_cons, List.flatten_cons, List.filterMap_append,
                filterMap_scoreOfS_result, ih, List.filterMap_cons]
            cases r.score <;> rfl
      rw [hmid]
      simp [scoreOfS]
  · intro s
    exact ⟨rfl, toFixed2_shape s⟩
  · intro rs
    induction rs with
    | nil => intro i; rfl
    | cons r rest ih =>
        intro i
        rw [show Req.enumFrom i (r :: rest) = (i, r) :: Req.enumFrom (i + 1) rest from rfl,
            List.map_cons, List.flatten_cons, List.filterMap_append, ih (i + 1)]
        rfl

end Tavily
